import Mathlib

/-!
Shallow embedding of the behavioral-analytics core of the
ai-agents-failure-recovery repository, together with theorems settling the
spec claims about it.

Conventions of the embedding:
* Python floats are modelled as exact rationals; timestamps
  (datetime / time.time values) are rationals measured in seconds, and every
  function that reads the wall clock in the source takes an explicit
  current-time parameter.
* Python ints are modelled as unbounded integers.
* Mutable per-session dictionaries are modelled as functions from session id
  to an optional entry, threaded explicitly through each operation.
* random.random draws are modelled as an explicit stream of rationals,
  indexed by the order in which the source draws them.
-/

/-! ## Python arithmetic helpers -/

/-- Arithmetic mean of a list, as computed by statistics.mean.
The source only applies it to non-empty lists. -/
def pyMean (l : List ℚ) : ℚ := l.sum / l.length

/-- Sample variance with denominator n - 1, as computed by statistics.variance:
the sum of squared deviations from the mean over n - 1. The source only
applies it to lists of at least two elements. -/
def pyVariance (l : List ℚ) : ℚ :=
  ((l.map (fun x => (x - pyMean l) ^ 2)).sum) / ((l.length : ℚ) - 1)

/-- The int constructor of Python: truncation toward zero. -/
def pyInt (q : ℚ) : ℤ := if 0 ≤ q then ⌊q⌋ else ⌈q⌉

/-- Python max over a non-empty list (0 as junk value for the empty list,
which the source never passes). -/
def pyListMax (l : List ℚ) : ℚ :=
  match l with
  | [] => 0
  | x :: xs => xs.foldl max x

/-- Python min over a non-empty list (0 as junk value for the empty list,
which the source never passes). -/
def pyListMin (l : List ℚ) : ℚ :=
  match l with
  | [] => 0
  | x :: xs => xs.foldl min x

/-- The Python slice l[-n:]: the last n elements (the whole list when it is
shorter than n). -/
def lastN {α : Type} (n : ℕ) (l : List α) : List α := l.drop (l.length - n)

/-- Sorting as used by the source (Python sorted on numbers). -/
def pySorted (l : List ℤ) : List ℤ := l.mergeSort (fun a b => decide (a ≤ b))

/-- Sorting of rationals (Python sorted on floats). -/
def pySortedQ (l : List ℚ) : List ℚ := l.mergeSort (fun a b => decide (a ≤ b))

/-! ## Data model (app/models.py) -/

/-- InteractionBehavior: behavioral metrics for a single agent interaction.
The optional anomaly_score / baseline_deviation report fields are omitted:
no analytics function reads them. -/
structure InteractionBehavior where
  session_id : String
  response_latency_ms : ℤ
  message_length : ℤ
  conversation_turns : ℤ
  clarification_frequency : ℚ
  topic_switches : ℤ
  confidence_expressions : ℤ
  timestamp : ℚ
  deriving DecidableEq, Repr, Inhabited

/-- The confidence-pattern dictionary. Every pattern built by the source
(_analyze_confidence_pattern, or a blend of two such) carries exactly the
keys average / variance / max / min, so it is modelled as a record. -/
structure ConfidencePattern where
  average : ℚ
  variance : ℚ
  max : ℚ
  min : ℚ
  deriving DecidableEq, Repr

/-- BehavioralBaseline: established normal behavior patterns for a session. -/
structure BehavioralBaseline where
  session_id : String
  avg_response_latency : ℚ
  typical_message_length_range : ℤ × ℤ
  normal_clarification_rate : ℚ
  standard_conversation_depth : ℤ
  confidence_pattern : ConfidencePattern
  interaction_count : ℕ
  established_at : ℚ
  last_updated : ℚ
  deriving DecidableEq, Repr

/-! ## BaselineManager (app/behavioral/baseline_manager.py) -/

/-- The state of a BaselineManager: its configuration and the in-memory
baselines dictionary keyed by session id. -/
structure BaselineManager where
  min_interactions : ℕ
  update_frequency_hours : ℤ
  baselines : String → Option BehavioralBaseline

/-- Store a baseline under a session id (dictionary assignment). -/
def setBaseline (m : String → Option BehavioralBaseline) (session_id : String)
    (b : BehavioralBaseline) : String → Option BehavioralBaseline :=
  fun s => if s = session_id then some b else m s

/-- BaselineManager._analyze_confidence_pattern. -/
def analyzeConfidencePattern (confidence_expressions : List ℤ) : ConfidencePattern :=
  if confidence_expressions = [] then ⟨0, 0, 0, 0⟩
  else
    let qs := confidence_expressions.map (fun (c : ℤ) => (c : ℚ))
    { average := pyMean qs
      variance := if 1 < confidence_expressions.length then pyVariance qs else 0
      max := pyListMax qs
      min := pyListMin qs }

/-- BaselineManager._blend_confidence_patterns. The source iterates over the
keys of the existing pattern, blending the keys also present in the new
pattern; both patterns always carry exactly the four keys of the record, so
every key is blended. -/
def blendConfidencePatterns (existing_pattern new_pattern : ConfidencePattern)
    (existing_weight new_weight : ℚ) : ConfidencePattern :=
  { average := existing_weight * existing_pattern.average + new_weight * new_pattern.average
    variance := existing_weight * existing_pattern.variance + new_weight * new_pattern.variance
    max := existing_weight * existing_pattern.max + new_weight * new_pattern.max
    min := existing_weight * existing_pattern.min + new_weight * new_pattern.min }

/-- BaselineManager.establish_baseline. The source indexes the sorted length
list at positions 0 and -1; under the min_interactions guard the list is
non-empty, so headD / getLastD defaults are never read. -/
def establishBaseline (mgr : BaselineManager) (now : ℚ) (session_id : String)
    (behaviors : List InteractionBehavior) : Option BehavioralBaseline × BaselineManager :=
  if behaviors.length < mgr.min_interactions then (none, mgr)
  else
    let response_latencies := behaviors.map (fun b => (b.response_latency_ms : ℚ))
    let message_lengths := behaviors.map (fun b => b.message_length)
    let clarification_rates := behaviors.map (fun b => b.clarification_frequency)
    let conversation_depths := behaviors.map (fun b => (b.conversation_turns : ℚ))
    let confidence_expressions := behaviors.map (fun b => b.confidence_expressions)
    let avg_response_latency := pyMean response_latencies
    let message_lengths_sorted := pySorted message_lengths
    let typical_length_range := (message_lengths_sorted.headD 0, message_lengths_sorted.getLastD 0)
    let normal_clarification_rate := pyMean clarification_rates
    let standard_conversation_depth := pyInt (pyMean conversation_depths)
    let confidence_pattern := analyzeConfidencePattern confidence_expressions
    let baseline : BehavioralBaseline :=
      { session_id := session_id
        avg_response_latency := avg_response_latency
        typical_message_length_range := typical_length_range
        normal_clarification_rate := normal_clarification_rate
        standard_conversation_depth := standard_conversation_depth
        confidence_pattern := confidence_pattern
        interaction_count := behaviors.length
        established_at := now
        last_updated := now }
    (some baseline, { mgr with baselines := setBaseline mgr.baselines session_id baseline })

/-- BaselineManager.update_baseline. -/
def updateBaseline (mgr : BaselineManager) (now : ℚ) (session_id : String)
    (new_behaviors : List InteractionBehavior) : Option BehavioralBaseline × BaselineManager :=
  match mgr.baselines session_id with
  | none => establishBaseline mgr now session_id new_behaviors
  | some existing_baseline =>
    if now - existing_baseline.last_updated < (mgr.update_frequency_hours : ℚ) * 3600 then
      (some existing_baseline, mgr)
    else
      let recent_weight : ℚ := 0.3
      let existing_weight : ℚ := 0.7
      if new_behaviors = [] then (some existing_baseline, mgr)
      else
        let new_avg_latency := pyMean (new_behaviors.map (fun b => (b.response_latency_ms : ℚ)))
        let new_message_lengths := new_behaviors.map (fun b => b.message_length)
        let new_clarification_rate := pyMean (new_behaviors.map (fun b => b.clarification_frequency))
        let new_confidence_expressions := new_behaviors.map (fun b => b.confidence_expressions)
        let updated_avg_latency :=
          existing_weight * existing_baseline.avg_response_latency + recent_weight * new_avg_latency
        let all_lengths_sorted := pySorted new_message_lengths
        let q1_idx := all_lengths_sorted.length / 4
        let q3_idx := 3 * all_lengths_sorted.length / 4
        let new_length_range :=
          (all_lengths_sorted.getD q1_idx existing_baseline.typical_message_length_range.1,
           all_lengths_sorted.getD q3_idx existing_baseline.typical_message_length_range.2)
        let updated_length_range :=
          (pyInt (existing_weight * (existing_baseline.typical_message_length_range.1 : ℚ) +
                    recent_weight * (new_length_range.1 : ℚ)),
           pyInt (existing_weight * (existing_baseline.typical_message_length_range.2 : ℚ) +
                    recent_weight * (new_length_range.2 : ℚ)))
        let updated_clarification_rate :=
          existing_weight * existing_baseline.normal_clarification_rate +
            recent_weight * new_clarification_rate
        let new_confidence_pattern := analyzeConfidencePattern new_confidence_expressions
        let updated_confidence_pattern := blendConfidencePatterns
          existing_baseline.confidence_pattern new_confidence_pattern existing_weight recent_weight
        let updated_baseline : BehavioralBaseline :=
          { session_id := session_id
            avg_response_latency := updated_avg_latency
            typical_message_length_range := updated_length_range
            normal_clarification_rate := updated_clarification_rate
            standard_conversation_depth := existing_baseline.standard_conversation_depth
            confidence_pattern := updated_confidence_pattern
            interaction_count := existing_baseline.interaction_count + new_behaviors.length
            established_at := existing_baseline.established_at
            last_updated := now }
        (some updated_baseline,
         { mgr with baselines := setBaseline mgr.baselines session_id updated_baseline })

/-- BaselineManager.detect_deviation. -/
def detectDeviation (current_behavior : InteractionBehavior)
    (baseline : BehavioralBaseline) : ℚ :=
  let latency_deviation :=
    |(current_behavior.response_latency_ms : ℚ) - baseline.avg_response_latency|
  let latency_relative_deviation := latency_deviation / max baseline.avg_response_latency 1
  let d0 := min latency_relative_deviation 1
  let min_length := baseline.typical_message_length_range.1
  let max_length := baseline.typical_message_length_range.2
  let length_deviation : ℚ :=
    if current_behavior.message_length < min_length then
      ((min_length : ℚ) - (current_behavior.message_length : ℚ)) / max (min_length : ℚ) 1
    else if max_length < current_behavior.message_length then
      ((current_behavior.message_length : ℚ) - (max_length : ℚ)) / max (max_length : ℚ) 1
    else 0
  let d1 := min length_deviation 1
  let clarification_deviation :=
    |current_behavior.clarification_frequency - baseline.normal_clarification_rate|
  let d2 := min clarification_deviation 1
  let baseline_confidence := baseline.confidence_pattern.average
  let confidence_deviation :=
    |(current_behavior.confidence_expressions : ℚ) - baseline_confidence|
  let confidence_relative_deviation := confidence_deviation / max (baseline_confidence + 1) 1
  let d3 := min confidence_relative_deviation 1
  d0 * (0.3 : ℚ) + d1 * (0.2 : ℚ) + d2 * (0.3 : ℚ) + d3 * (0.2 : ℚ)

/-- Modelled from the spec: the population variance of the
confidence-expression counts, i.e. the mean of the squared deviations from
the mean (denominator n), the quantity the claim says the variance entry
equals. -/
def specPopulationVariance (confidence_expressions : List ℤ) : ℚ :=
  pyMean ((confidence_expressions.map (fun (c : ℤ) => (c : ℚ))).map
    (fun x => (x - pyMean (confidence_expressions.map (fun (c : ℤ) => (c : ℚ)))) ^ 2))

/-! ## TemporalBehaviorAnalyzer (app/behavioral/temporal_analyzer.py) -/

/-- DriftScore: behavioral drift detection results. The source renders each
contributing factor as a formatted string carrying the dimension name and the
two-decimal value; the embedding keeps the dimension-name part of the string. -/
structure DriftScore where
  session_id : String
  drift_score : ℚ
  drift_type : String
  time_window_hours : ℤ
  confidence : ℚ
  detected_at : ℚ
  contributing_factors : List String
  deriving DecidableEq, Repr

/-- PatternAnalysis: analysis of interaction patterns. The free-form
pattern_metadata dictionary is omitted: nothing downstream branches on it. -/
structure PatternAnalysis where
  session_id : String
  pattern_type : String
  pattern_strength : ℚ
  repetition_count : ℕ
  last_occurrence : ℚ
  deriving DecidableEq, Repr

/-- TemporalBehaviorAnalyzer._calculate_latency_drift. -/
def calculateLatencyDrift (early late : List InteractionBehavior) : ℚ :=
  let early_avg := pyMean (early.map (fun b => (b.response_latency_ms : ℚ)))
  let late_avg := pyMean (late.map (fun b => (b.response_latency_ms : ℚ)))
  if early_avg = 0 then 0 else |late_avg - early_avg| / early_avg

/-- TemporalBehaviorAnalyzer._calculate_length_drift. -/
def calculateLengthDrift (early late : List InteractionBehavior) : ℚ :=
  let early_avg := pyMean (early.map (fun b => (b.message_length : ℚ)))
  let late_avg := pyMean (late.map (fun b => (b.message_length : ℚ)))
  if early_avg = 0 then 0 else |late_avg - early_avg| / early_avg

/-- TemporalBehaviorAnalyzer._calculate_clarification_drift. -/
def calculateClarificationDrift (early late : List InteractionBehavior) : ℚ :=
  let early_avg := pyMean (early.map (fun b => b.clarification_frequency))
  let late_avg := pyMean (late.map (fun b => b.clarification_frequency))
  |late_avg - early_avg|

/-- TemporalBehaviorAnalyzer._calculate_confidence_drift. -/
def calculateConfidenceDrift (early late : List InteractionBehavior) : ℚ :=
  let early_avg := pyMean (early.map (fun b => (b.confidence_expressions : ℚ)))
  let late_avg := pyMean (late.map (fun b => (b.confidence_expressions : ℚ)))
  if early_avg = 0 then |late_avg - early_avg| else |late_avg - early_avg| / (early_avg + 1)

/-- Python max over key-value pairs with key-function lookup: returns the key
of the first pair holding the maximal value (ties keep the earlier pair). -/
def pyMaxByValue : List (String × ℚ) → String
  | [] => ""
  | (k, v) :: rest => (rest.foldl (fun acc p => if acc.2 < p.2 then p else acc) (k, v)).1

/-- TemporalBehaviorAnalyzer._analyze_drift_components. -/
def analyzeDriftComponents (latency_drift length_drift clarification_drift confidence_drift : ℚ) :
    String × List String :=
  let drifts : List (String × ℚ) :=
    [("latency", latency_drift), ("length", length_drift),
     ("clarification", clarification_drift), ("confidence", confidence_drift)]
  let max_drift_type := pyMaxByValue drifts
  let contributing_factors :=
    (drifts.filter (fun p => decide ((0.2 : ℚ) < p.2))).map
      (fun p => "Significant " ++ p.1 ++ " drift")
  (max_drift_type, contributing_factors)

/-- TemporalBehaviorAnalyzer.detect_behavioral_drift. The source reads
datetime.now twice (cutoff and detected_at); both reads are the explicit now
parameter here. The source is always called with the default 24-hour window,
passed explicitly here. -/
def detectBehavioralDrift (now : ℚ) (behaviors : List InteractionBehavior)
    (time_window_hours : ℤ) : DriftScore :=
  if behaviors.length < 4 then
    { session_id := (behaviors.headD default).session_id
      drift_score := 0
      drift_type := "insufficient_data"
      time_window_hours := time_window_hours
      confidence := 0
      detected_at := now
      contributing_factors := ["Insufficient data for drift analysis"] }
  else
    let session_id := (behaviors.headD default).session_id
    let cutoff_time := now - (time_window_hours : ℚ) * 3600
    let recent_behaviors := behaviors.filter (fun b => decide (cutoff_time ≤ b.timestamp))
    if recent_behaviors.length < 2 then
      { session_id := session_id
        drift_score := 0
        drift_type := "insufficient_recent_data"
        time_window_hours := time_window_hours
        confidence := 0
        detected_at := now
        contributing_factors := ["Insufficient recent data"] }
    else
      let mid_point := recent_behaviors.length / 2
      let early_behaviors := recent_behaviors.take mid_point
      let late_behaviors := recent_behaviors.drop mid_point
      let latency_drift := calculateLatencyDrift early_behaviors late_behaviors
      let length_drift := calculateLengthDrift early_behaviors late_behaviors
      let clarification_drift := calculateClarificationDrift early_behaviors late_behaviors
      let confidence_drift := calculateConfidenceDrift early_behaviors late_behaviors
      let drift_components := [latency_drift, length_drift, clarification_drift, confidence_drift]
      let overall_drift := pyMean drift_components
      let tf := analyzeDriftComponents latency_drift length_drift clarification_drift confidence_drift
      let confidence := min ((recent_behaviors.length : ℚ) / 10) 1
      { session_id := session_id
        drift_score := overall_drift
        drift_type := tf.1
        time_window_hours := time_window_hours
        confidence := confidence
        detected_at := now
        contributing_factors := tf.2 }

/-- The empty-sequence guard and the nested pairwise-equality loop of
TemporalBehaviorAnalyzer._calculate_pattern_strength: for each index i, the
inner loop compares sequence i with every later element. Returns the pair
(pattern_count, total_comparisons). -/
def patternPairCounts : List String → ℕ × ℕ
  | [] => (0, 0)
  | x :: xs =>
    let rest := patternPairCounts xs
    (rest.1 + (xs.filter (fun y => y = x)).length, rest.2 + xs.length)

/-- TemporalBehaviorAnalyzer._calculate_pattern_strength. -/
def calculatePatternStrength (sequence : List String) : ℚ :=
  if sequence.length < 2 then 0
  else
    let counts := patternPairCounts sequence
    if counts.2 = 0 then 0 else (counts.1 : ℚ) / (counts.2 : ℚ)

/-- The step-counting loop of TemporalBehaviorAnalyzer._calculate_trend_strength:
for each consecutive pair, count strict increases, strict decreases, and total
steps. Returns (increases, decreases, total_changes). -/
def trendSteps : List ℚ → ℕ × ℕ × ℕ
  | [] => (0, 0, 0)
  | [_] => (0, 0, 0)
  | a :: b :: rest =>
    let acc := trendSteps (b :: rest)
    ((if a < b then acc.1 + 1 else acc.1),
     (if b < a then acc.2.1 + 1 else acc.2.1),
     acc.2.2 + 1)

/-- TemporalBehaviorAnalyzer._calculate_trend_strength. -/
def calculateTrendStrength (values : List ℚ) : ℚ :=
  if values.length < 2 then 0
  else
    let steps := trendSteps values
    if steps.2.2 = 0 then 0 else ((steps.1 : ℚ) - (steps.2.1 : ℚ)) / (steps.2.2 : ℚ)

/-- The length bucketing of TemporalBehaviorAnalyzer._identify_length_patterns. -/
def lengthBucket (message_length : ℤ) : String :=
  if message_length < 50 then "short" else if message_length < 200 then "medium" else "long"

/-- TemporalBehaviorAnalyzer._identify_length_patterns. Callers guard
len(behaviors) >= 3, so the index-0 and index-(-1) accesses are safe and the
headD / getLastD defaults are never read. -/
def identifyLengthPatterns (behaviors : List InteractionBehavior) : Option PatternAnalysis :=
  let length_ranges := behaviors.map (fun b => lengthBucket b.message_length)
  let pattern_strength := calculatePatternStrength length_ranges
  if (0.6 : ℚ) < pattern_strength then
    some { session_id := (behaviors.headD default).session_id
           pattern_type := "message_length"
           pattern_strength := pattern_strength
           repetition_count := behaviors.length
           last_occurrence := (behaviors.getLastD default).timestamp }
  else none

/-- TemporalBehaviorAnalyzer._identify_clarification_patterns. -/
def identifyClarificationPatterns (behaviors : List InteractionBehavior) : Option PatternAnalysis :=
  let clarifications := behaviors.map (fun b => b.clarification_frequency)
  if 3 ≤ clarifications.length then
    let trend_strength := calculateTrendStrength clarifications
    if (0.6 : ℚ) < |trend_strength| then
      some { session_id := (behaviors.headD default).session_id
             pattern_type := "clarification_trend"
             pattern_strength := |trend_strength|
             repetition_count := behaviors.length
             last_occurrence := (behaviors.getLastD default).timestamp }
    else none
  else none

/-- TemporalBehaviorAnalyzer._identify_confidence_patterns. The source
stringifies the confidence counts before the pairwise-equality measure. -/
def identifyConfidencePatterns (behaviors : List InteractionBehavior) : Option PatternAnalysis :=
  let confidences := behaviors.map (fun b => toString b.confidence_expressions)
  let pattern_strength := calculatePatternStrength confidences
  if (0.5 : ℚ) < pattern_strength then
    some { session_id := (behaviors.headD default).session_id
           pattern_type := "confidence_expression"
           pattern_strength := pattern_strength
           repetition_count := behaviors.length
           last_occurrence := (behaviors.getLastD default).timestamp }
  else none

/-- TemporalBehaviorAnalyzer.identify_interaction_patterns. -/
def identifyInteractionPatterns (behaviors : List InteractionBehavior) : List PatternAnalysis :=
  if behaviors.length < 3 then []
  else
    (identifyLengthPatterns behaviors).toList ++
      (identifyClarificationPatterns behaviors).toList ++
      (identifyConfidencePatterns behaviors).toList

/-- The three possible loop-detection dictionaries returned by
TemporalBehaviorAnalyzer.detect_response_loops, one constructor per loop_type
with that shape of payload. -/
inductive LoopResult where
  | exact_repetition (pattern_length : ℕ) (repeated_text : String) (confidence : ℚ)
  | low_diversity (pattern_length : ℕ) (uniqueness_ratio : ℚ) (confidence : ℚ)
  | alternating_pattern (pattern_length : ℕ) (pattern_texts : List String) (confidence : ℚ)
  deriving DecidableEq, Repr

/-- The confidence entry of a loop-detection result. -/
def LoopResult.confidence : LoopResult → ℚ
  | .exact_repetition _ _ c => c
  | .low_diversity _ _ c => c
  | .alternating_pattern _ _ c => c

/-- The loop_type entry of a loop-detection result. -/
def LoopResult.loop_type : LoopResult → String
  | .exact_repetition _ _ _ => "exact_repetition"
  | .low_diversity _ _ _ => "low_diversity"
  | .alternating_pattern _ _ _ => "alternating_pattern"

/-- The alternating-pattern check at the end of
TemporalBehaviorAnalyzer.detect_response_loops. -/
def alternatingCheck (recent_responses : List String) : Option LoopResult :=
  if 4 ≤ recent_responses.length then
    let last_four := lastN 4 recent_responses
    if last_four.getD 0 "" = last_four.getD 2 "" ∧ last_four.getD 1 "" = last_four.getD 3 "" then
      some (.alternating_pattern 2
        [(last_four.getD 0 "").take 50, (last_four.getD 1 "").take 50] (0.9 : ℚ))
    else none
  else none

/-- TemporalBehaviorAnalyzer.detect_response_loops. Python set sizes are the
dedup lengths; the slices are lastN. -/
def detectResponseLoops (recent_responses : List String) : Option LoopResult :=
  if recent_responses.length < 3 then none
  else
    let last_three := lastN 3 recent_responses
    if last_three.dedup.length = 1 then
      some (.exact_repetition 3 ((last_three.headD "").take 100) 1)
    else if 5 ≤ recent_responses.length then
      let last_five := lastN 5 recent_responses
      let uniqueness_ratio : ℚ := (last_five.dedup.length : ℚ) / (last_five.length : ℚ)
      if uniqueness_ratio < (0.6 : ℚ) then
        some (.low_diversity 5 uniqueness_ratio (1 - uniqueness_ratio))
      else alternatingCheck recent_responses
    else alternatingCheck recent_responses

/-! ## AnomalyDetector (app/behavioral/anomaly_detector.py) -/

/-- One entry of the anomalies_detected list. The machine-readable details
dictionary is free-form reporting data and is omitted; the type, score and
description drive everything downstream. -/
structure AnomalyRecord where
  type : String
  score : ℚ
  description : String
  deriving DecidableEq, Repr

/-- The composite result dictionary of AnomalyDetector.detect_anomalies.
anomaly_scores is the insertion-ordered per-type score dictionary. -/
structure AnomalyResults where
  session_id : String
  timestamp : ℚ
  anomalies_detected : List AnomalyRecord
  anomaly_scores : List (String × ℚ)
  overall_anomaly_score : ℚ
  confidence : ℚ
  recommendations : List String
  deriving DecidableEq, Repr

/-- AnomalyDetector configuration. The temporal analyzer is stateless, so only
the baseline manager and the two thresholds are carried. -/
structure AnomalyDetector where
  baseline_manager : BaselineManager
  anomaly_threshold : ℚ
  drift_threshold : ℚ

/-- The median step of AnomalyDetector._is_outlier: the element at index
len // 2 of the sorted values. -/
def pyMedian (l : List ℚ) : ℚ :=
  let sorted_values := pySortedQ l
  sorted_values.getD (sorted_values.length / 2) 0

/-- AnomalyDetector._is_outlier with the modified Z-score. -/
def isOutlier (value : ℚ) (historical_values : List ℚ) (threshold : ℚ) : Bool :=
  if historical_values.length < 3 then false
  else
    let median := pyMedian historical_values
    let deviations := historical_values.map (fun v => |v - median|)
    let mad := (pySortedQ deviations).getD (deviations.length / 2) 0
    if mad = 0 then false
    else
      let modified_z_score := (0.6745 : ℚ) * (value - median) / mad
      decide (threshold < |modified_z_score|)

/-- AnomalyDetector._detect_baseline_anomaly. Returns the optional anomaly
record together with the possibly-extended baseline store (the lazy
establishment mutates the shared baseline manager). -/
def detectBaselineAnomaly (det : AnomalyDetector) (now : ℚ)
    (current_behavior : InteractionBehavior) (session_behaviors : List InteractionBehavior) :
    Option AnomalyRecord × BaselineManager :=
  let mgr := det.baseline_manager
  let r :=
    match mgr.baselines current_behavior.session_id with
    | some b => (some b, mgr)
    | none =>
      if mgr.min_interactions ≤ session_behaviors.length then
        establishBaseline mgr now current_behavior.session_id session_behaviors
      else (none, mgr)
  match r.1 with
  | none => (none, r.2)
  | some baseline =>
    let deviation_score := detectDeviation current_behavior baseline
    if det.anomaly_threshold ≤ deviation_score then
      (some { type := "baseline_deviation"
              score := deviation_score
              description := "Behavior deviates significantly from established baseline" }, r.2)
    else (none, r.2)

/-- AnomalyDetector._detect_drift_anomaly. -/
def detectDriftAnomaly (det : AnomalyDetector) (now : ℚ)
    (session_behaviors : List InteractionBehavior) : Option AnomalyRecord :=
  if session_behaviors.length < 4 then none
  else
    let drift_score := detectBehavioralDrift now session_behaviors 24
    if det.drift_threshold ≤ drift_score.drift_score then
      some { type := "temporal_drift"
             score := drift_score.drift_score
             description := "Significant behavioral drift detected: " ++ drift_score.drift_type }
    else none

/-- AnomalyDetector._detect_pattern_anomaly: the first identified pattern of
strength above 0.8 whose type is clarification_trend. -/
def detectPatternAnomaly (session_behaviors : List InteractionBehavior) : Option AnomalyRecord :=
  let patterns := identifyInteractionPatterns session_behaviors
  (patterns.find? (fun p =>
      decide ((0.8 : ℚ) < p.pattern_strength) && decide (p.pattern_type = "clarification_trend"))).map
    (fun p =>
      { type := "pattern_anomaly"
        score := p.pattern_strength
        description := "Problematic interaction pattern detected: " ++ p.pattern_type })

/-- AnomalyDetector._detect_statistical_anomaly. -/
def detectStatisticalAnomaly (current_behavior : InteractionBehavior)
    (session_behaviors : List InteractionBehavior) : Option AnomalyRecord :=
  if session_behaviors.length < 3 then none
  else
    let latencies := session_behaviors.map (fun b => (b.response_latency_ms : ℚ))
    let lengths := session_behaviors.map (fun b => (b.message_length : ℚ))
    let clarifications := session_behaviors.map (fun b => b.clarification_frequency)
    let anomalies :=
      (if isOutlier (current_behavior.response_latency_ms : ℚ) latencies 2 then
        ["response_latency"] else []) ++
      (if isOutlier (current_behavior.message_length : ℚ) lengths 2 then
        ["message_length"] else []) ++
      (if isOutlier current_behavior.clarification_frequency clarifications 2 then
        ["clarification_frequency"] else [])
    if anomalies = [] then none
    else
      some { type := "statistical_anomaly"
             score := (anomalies.length : ℚ) / 4
             description := "Statistical outliers detected" }

/-- AnomalyDetector._detect_loop_anomaly. -/
def detectLoopAnomaly (recent_responses : List String) : Option AnomalyRecord :=
  (detectResponseLoops recent_responses).map (fun loop_result =>
    { type := "response_loop"
      score := loop_result.confidence
      description := "Response loop detected: " ++ loop_result.loop_type })

/-- AnomalyDetector._calculate_confidence. -/
def calculateConfidence (now : ℚ) (session_behaviors : List InteractionBehavior) : ℚ :=
  let data_confidence := min ((session_behaviors.length : ℚ) / 20) 1
  let recency_confidence :=
    match session_behaviors.getLast? with
    | some latest_behavior => max 0 (1 - (now - latest_behavior.timestamp) / 86400)
    | none => 0
  (data_confidence + recency_confidence) / 2

/-- AnomalyDetector._generate_recommendations (the source reads the fields of
the partially built results dictionary; they are passed here directly). -/
def generateRecommendations (anomalies_detected : List AnomalyRecord)
    (overall_anomaly_score confidence : ℚ) : List String :=
  let recs0 : List String :=
    if (0.8 : ℚ) ≤ overall_anomaly_score then
      ["High anomaly score detected - immediate investigation recommended"] else []
  let recs1 := recs0 ++ anomalies_detected.filterMap (fun a =>
    if a.type = "baseline_deviation" then
      some "Monitor agent performance for consistency issues"
    else if a.type = "temporal_drift" then
      some "Check for gradual degradation in agent behavior over time"
    else if a.type = "pattern_anomaly" then
      some "Investigate repetitive problematic interaction patterns"
    else if a.type = "statistical_anomaly" then
      some "Review outlier behaviors for potential system issues"
    else if a.type = "response_loop" then
      some "Agent appears stuck in response loop - restart or reset session"
    else none)
  let recs2 := recs1 ++
    (if confidence < (0.5 : ℚ) then
      ["Low confidence in results - collect more behavioral data"] else [])
  if recs2 = [] then ["No significant anomalies detected - continue monitoring"] else recs2

/-- AnomalyDetector.detect_anomalies. recent_responses is optional and subject
to Python truthiness: both None and the empty list skip the loop check. -/
def detectAnomalies (det : AnomalyDetector) (now : ℚ) (session_id : String)
    (current_behavior : InteractionBehavior) (session_behaviors : List InteractionBehavior)
    (recent_responses : Option (List String)) : AnomalyResults × BaselineManager :=
  let ba := detectBaselineAnomaly det now current_behavior session_behaviors
  let drift_anomaly := detectDriftAnomaly det now session_behaviors
  let pattern_anomaly := detectPatternAnomaly session_behaviors
  let statistical_anomaly := detectStatisticalAnomaly current_behavior session_behaviors
  let loop_anomaly :=
    match recent_responses with
    | some rs => if rs = [] then none else detectLoopAnomaly rs
    | none => none
  let checks : List (String × Option AnomalyRecord) :=
    [("baseline_deviation", ba.1), ("temporal_drift", drift_anomaly),
     ("pattern_anomaly", pattern_anomaly), ("statistical_anomaly", statistical_anomaly),
     ("response_loop", loop_anomaly)]
  let anomalies_detected := checks.filterMap (fun c => c.2)
  let anomaly_scores : List (String × ℚ) :=
    checks.filterMap (fun c => c.2.map (fun a => (c.1, a.score)))
  let overall_anomaly_score :=
    if anomaly_scores = [] then 0 else pyListMax (anomaly_scores.map (fun p => p.2))
  let confidence := calculateConfidence now session_behaviors
  let recommendations := generateRecommendations anomalies_detected overall_anomaly_score confidence
  ({ session_id := session_id
     timestamp := now
     anomalies_detected := anomalies_detected
     anomaly_scores := anomaly_scores
     overall_anomaly_score := overall_anomaly_score
     confidence := confidence
     recommendations := recommendations }, ba.2)

/-! ## FailureInjector (app/failure_injector.py) -/

/-- The failure modes of the catalog. -/
inductive FailureMode where
  | hallucination
  | incorrect_reasoning
  | off_topic
  | infinite_loop
  | refusing_progress
  | api_timeout
  | auth_error
  | service_unavailable
  | token_limit
  | memory_exhaustion
  | rate_limiting
  deriving DecidableEq, Repr

/-- Per-session failure-injection state. -/
structure SessionState where
  failure_count : ℕ
  last_failure_time : Option ℚ
  last_failure_mode : Option FailureMode
  clarification_requests : ℕ
  message_count : ℕ
  deriving DecidableEq, Repr

/-- The fresh session state created on first probabilistic evaluation. -/
def freshSessionState : SessionState :=
  { failure_count := 0
    last_failure_time := none
    last_failure_mode := none
    clarification_requests := 0
    message_count := 0 }

/-- FailureInjector state: configuration plus the per-session state map. -/
structure FailureInjector where
  probabilistic_mode : Bool
  failure_rate_multiplier : ℚ
  session_states : String → Option SessionState

/-- Store a session state (dictionary assignment). -/
def setSessionState (m : String → Option SessionState) (session_id : String)
    (st : SessionState) : String → Option SessionState :=
  fun s => if s = session_id then some st else m s

/-- The base probabilities of the failure_scenarios catalog, in declaration
order. The payload data (canned responses, error messages, timeout range)
does not influence the injection decision and is omitted here. -/
def failure_scenario_probabilities : List (FailureMode × ℚ) :=
  [(.hallucination, 0.3), (.incorrect_reasoning, 0.25), (.off_topic, 0.2),
   (.infinite_loop, 0.2), (.refusing_progress, 0.15),
   (.api_timeout, 0.1), (.auth_error, 0.08), (.service_unavailable, 0.12),
   (.token_limit, 0.05), (.memory_exhaustion, 0.03), (.rate_limiting, 0.07)]

/-- The per-mode probability loop of
FailureInjector._evaluate_probabilistic_failure: iterate the catalog in
declaration order, drawing one uniform value per mode (draw index i), and
select the first mode whose draw falls under its adjusted probability. -/
def rollForFailure (multiplier : ℚ) (st : SessionState) (draws : ℕ → ℚ) :
    ℕ → List (FailureMode × ℚ) → Option FailureMode
  | _, [] => none
  | i, (mode, probability) :: rest =>
    let adjusted0 := probability * multiplier
    let adjusted1 :=
      if mode = .infinite_loop ∧ 1 ≤ st.clarification_requests then adjusted0 * 2 else adjusted0
    let adjusted_probability :=
      if st.last_failure_mode = some mode then adjusted1 * (0.3 : ℚ) else adjusted1
    if draws i < adjusted_probability then some mode
    else rollForFailure multiplier st draws (i + 1) rest

/-- FailureInjector._evaluate_probabilistic_failure. The message-count bump
happens before the cooldown check, so it is stored on every path, matching
the in-place dictionary mutation of the source. The cooldown check follows
Python truthiness: a stored last-failure time of exactly 0 is falsy and skips
the check. -/
def evaluateProbabilisticFailure (inj : FailureInjector) (now : ℚ) (draws : ℕ → ℚ)
    (session_id : String) : (Bool × Option FailureMode) × FailureInjector :=
  let st0 := (inj.session_states session_id).getD freshSessionState
  let st1 := { st0 with message_count := st0.message_count + 1 }
  let cooldown_active : Bool :=
    match st1.last_failure_time with
    | some t => decide (t ≠ 0) && decide (now - t < 30)
    | none => false
  if cooldown_active then
    ((false, none), { inj with session_states := setSessionState inj.session_states session_id st1 })
  else
    match rollForFailure inj.failure_rate_multiplier st1 draws 0 failure_scenario_probabilities with
    | some mode =>
      let st2 := { st1 with
        failure_count := st1.failure_count + 1
        last_failure_time := some now
        last_failure_mode := some mode
        clarification_requests :=
          if mode = .infinite_loop then st1.clarification_requests + 1 else 0 }
      ((true, some mode),
       { inj with session_states := setSessionState inj.session_states session_id st2 })
    | none =>
      ((false, none),
       { inj with session_states := setSessionState inj.session_states session_id st1 })

/-- FailureInjector.should_inject_failure. The message argument is carried but
never read by the decision logic, as in the source. -/
def shouldInjectFailure (inj : FailureInjector) (now : ℚ) (draws : ℕ → ℚ)
    (session_id _message : String) (failure_mode : Option FailureMode) :
    (Bool × Option FailureMode) × FailureInjector :=
  match failure_mode with
  | some m => ((true, some m), inj)
  | none =>
    if inj.probabilistic_mode then evaluateProbabilisticFailure inj now draws session_id
    else ((false, none), inj)

/-- A sequence of probabilistic should_inject_failure calls for one session,
each with its own wall-clock time and draw stream, threading the injector
state; returns the per-call results and the final state. -/
def runEvals (inj : FailureInjector) (session_id msg : String) :
    List (ℚ × (ℕ → ℚ)) → List (Bool × Option FailureMode) × FailureInjector
  | [] => ([], inj)
  | (t, d) :: rest =>
    let step := shouldInjectFailure inj t d session_id msg none
    let tail := runEvals step.2 session_id msg rest
    (step.1 :: tail.1, tail.2)

/-! ## InteractionTracker topic-switch heuristic (app/behavioral/interaction_tracker.py) -/

/-- The stop words removed by InteractionTracker._detect_topic_switches. -/
def stop_words : List String :=
  ["the", "a", "an", "and", "or", "but", "in", "on", "at", "to", "for", "of", "with", "by"]

/-- Python str.split run over the character list: split on whitespace,
dropping empty chunks. The first argument accumulates the current word in
reverse. -/
def splitWhitespaceAux (cur_rev : List Char) : List Char → List (List Char)
  | [] => if cur_rev = [] then [] else [cur_rev.reverse]
  | c :: cs =>
    if c.isWhitespace then
      if cur_rev = [] then splitWhitespaceAux [] cs
      else cur_rev.reverse :: splitWhitespaceAux [] cs
    else splitWhitespaceAux (c :: cur_rev) cs

/-- Python str.split with no separator argument. -/
def pySplitWhitespace (s : String) : List String :=
  (splitWhitespaceAux [] s.data).map (fun w => String.mk w)

/-- Python str.lower (per-character lowering). -/
def pyLower (s : String) : String := String.mk (s.data.map Char.toLower)

/-- The stop-word-filtered set of words of the user message, as built by
InteractionTracker._detect_topic_switches: set(user_message.lower().split())
minus the stop words. Sets of strings are modelled as deduplicated lists. -/
def userContentWords (user_message : String) : List String :=
  ((pySplitWhitespace (pyLower user_message)).dedup).filter (fun w => w ∉ stop_words)

/-- InteractionTracker._detect_topic_switches. -/
def detectTopicSwitches (user_message agent_response : String) : ℤ :=
  let user_words := userContentWords user_message
  let response_words :=
    ((pySplitWhitespace (pyLower agent_response)).dedup).filter (fun w => w ∉ stop_words)
  if user_words.length = 0 then 0
  else
    let overlap := (user_words.filter (fun w => w ∈ response_words)).length
    let overlap_ratio : ℚ := (overlap : ℚ) / (user_words.length : ℚ)
    if overlap_ratio < (0.2 : ℚ) ∧ 10 < (pySplitWhitespace agent_response).length then 1 else 0

/-! ## Helper lemmas -/

/-- The arithmetic mean of n copies of a value is that value. -/
theorem pyMean_replicate (n : ℕ) (hn : n ≠ 0) (v : ℚ) : pyMean (List.replicate n v) = v := by
  simp only [pyMean, List.sum_replicate, List.length_replicate, nsmul_eq_mul]
  field_simp

/-- Sorting a constant list returns it unchanged. -/
theorem pySorted_replicate (n : ℕ) (v : ℤ) :
    pySorted (List.replicate n v) = List.replicate n v := by
  apply List.eq_replicate_iff.mpr
  refine ⟨?_, ?_⟩
  · have h := (List.mergeSort_perm (List.replicate n v) (fun a b => decide (a ≤ b))).length_eq
    simp only [pySorted]
    rw [h, List.length_replicate]
  · intro b hb
    have hb2 : b ∈ List.replicate n v :=
      (List.mergeSort_perm (List.replicate n v) (fun a b => decide (a ≤ b))).mem_iff.mp
        (by simpa [pySorted] using hb)
    exact List.eq_of_mem_replicate hb2

/-- Head of a non-empty constant list. -/
theorem headD_replicate (n : ℕ) (hn : n ≠ 0) (v d : ℤ) :
    (List.replicate n v).headD d = v := by
  cases n with
  | zero => exact absurd rfl hn
  | succ m => simp [List.replicate_succ]

/-- Last element of a non-empty constant list. -/
theorem getLastD_replicate (v : ℤ) :
    ∀ (n : ℕ), n ≠ 0 → ∀ (d : ℤ), (List.replicate n v).getLastD d = v := by
  intro n
  induction n with
  | zero => intro h; exact absurd rfl h
  | succ m ih =>
    intro _ d
    rw [List.replicate_succ, List.getLastD_cons]
    cases Nat.eq_zero_or_pos m with
    | inl h0 => subst h0; simp
    | inr hpos => exact ih (Nat.pos_iff_ne_zero.mp hpos) v

/-- The Python max of a non-empty list is attained and bounds every element. -/
theorem pyListMax_spec (x : ℚ) (xs : List ℚ) :
    pyListMax (x :: xs) ∈ x :: xs ∧ ∀ q ∈ x :: xs, q ≤ pyListMax (x :: xs) := by
  suffices h : ∀ (ys : List ℚ) (a : ℚ),
      (ys.foldl max a ∈ a :: ys) ∧ a ≤ ys.foldl max a ∧ ∀ q ∈ ys, q ≤ ys.foldl max a by
    obtain ⟨h1, h2, h3⟩ := h xs x
    refine ⟨h1, ?_⟩
    intro q hq
    rcases List.mem_cons.mp hq with rfl | hq
    · exact h2
    · exact h3 q hq
  intro ys
  induction ys with
  | nil => intro a; simp
  | cons y ys ih =>
    intro a
    obtain ⟨h1, h2, h3⟩ := ih (max a y)
    refine ⟨?_, ?_, ?_⟩
    · rw [List.foldl_cons]
      rcases List.mem_cons.mp h1 with h | h
      · rcases max_choice a y with hc | hc
        · rw [h, hc]; exact List.mem_cons_self a (y :: ys)
        · rw [h, hc]; exact List.mem_cons_of_mem a (List.mem_cons_self y ys)
      · exact List.mem_cons_of_mem a (List.mem_cons_of_mem y h)
    · exact le_trans (le_max_left a y) h2
    · intro q hq
      rcases List.mem_cons.mp hq with rfl | hq
      · exact le_trans (le_max_right a q) h2
      · exact h3 q hq

/-- An update with an empty batch never changes an existing baseline or the
store, on either side of the time throttle. -/
theorem updateBaseline_nil (mgr : BaselineManager) (t : ℚ) (session_id : String)
    (b : BehavioralBaseline) (hb : mgr.baselines session_id = some b) :
    updateBaseline mgr t session_id [] = (some b, mgr) := by
  simp only [updateBaseline, hb]
  split
  · rfl
  · simp

/-- Rescaling a sum over n - 1 into a multiple of the mean. -/
theorem sum_div_sub_one_eq_mul_pyMean (L : List ℚ) (n : ℚ) (h : n = (L.length : ℚ))
    (hn0 : n ≠ 0) (hn1 : n - 1 ≠ 0) :
    L.sum / (n - 1) = n / (n - 1) * pyMean L := by
  unfold pyMean
  rw [← h]
  generalize L.sum = S
  field_simp
  ring

/-! ## Claim theorems -/

/-- C2: establish_baseline returns none exactly when fewer than
min_interactions behaviors are supplied; on exactly min_interactions
identical behaviors the baseline averages equal the constant values and the
typical length range collapses to a point. -/
theorem c2_establish_baseline_iff (mgr : BaselineManager) (now : ℚ) (session_id : String)
    (hmin : 0 < mgr.min_interactions) :
    (∀ behaviors : List InteractionBehavior,
       (establishBaseline mgr now session_id behaviors).1 = none ↔
         behaviors.length < mgr.min_interactions) ∧
    (∀ b : InteractionBehavior,
       ((establishBaseline mgr now session_id
           (List.replicate mgr.min_interactions b)).1.map
         (fun baseline =>
           (baseline.avg_response_latency, baseline.typical_message_length_range,
            baseline.normal_clarification_rate, baseline.confidence_pattern.average))) =
       some ((b.response_latency_ms : ℚ), (b.message_length, b.message_length),
             b.clarification_frequency, (b.confidence_expressions : ℚ))) := by
  have hne : mgr.min_interactions ≠ 0 := Nat.pos_iff_ne_zero.mp hmin
  constructor
  · intro behaviors
    by_cases hlt : behaviors.length < mgr.min_interactions <;>
      simp [establishBaseline, hlt]
  · intro b
    have hn1 : ¬ ((List.replicate mgr.min_interactions b).length < mgr.min_interactions) := by
      simp
    have hrepne : List.replicate mgr.min_interactions b.confidence_expressions ≠ [] := by
      simp [hne]
    have hcp : (analyzeConfidencePattern
        (List.replicate mgr.min_interactions b.confidence_expressions)).average =
        (b.confidence_expressions : ℚ) := by
      simp only [analyzeConfidencePattern, if_neg hrepne, List.map_replicate]
      exact pyMean_replicate _ hne _
    simp [establishBaseline, hn1, List.map_replicate, pySorted_replicate,
      pyMean_replicate _ hne, headD_replicate _ hne, getLastD_replicate _ _ hne, hcp]
    constructor
    · rw [← List.headD_eq_head?]
      exact headD_replicate _ hne _ _
    · rw [← List.getLastD_eq_getLast?]
      exact getLastD_replicate _ _ hne _

/-- Witness instantiating C2 at a concrete manager and behavior list. -/
theorem c2_establish_baseline_iff_witness :
    ((establishBaseline ⟨1, 6, fun _ => none⟩ 0 "s"
        [⟨"s", 100, 10, 1, 0, 0, 0, 0⟩]).1 = none ↔
      ([(⟨"s", 100, 10, 1, 0, 0, 0, 0⟩ : InteractionBehavior)] : List InteractionBehavior).length < 1) :=
  (c2_establish_baseline_iff ⟨1, 6, fun _ => none⟩ 0 "s" (by norm_num)).1
    [⟨"s", 100, 10, 1, 0, 0, 0, 0⟩]

/-- C4 counterexample: on the confidence counts 0 and 2 the variance entry is
the sample variance 2, not the population variance 1 that the claim states. -/
theorem c4_variance_counterexample :
    (analyzeConfidencePattern [0, 2]).variance = 2 ∧
    specPopulationVariance [0, 2] = 1 ∧
    (analyzeConfidencePattern [0, 2]).variance ≠ specPopulationVariance [0, 2] := by
  have hne2 : ([0, 2] : List ℤ) ≠ [] := by simp
  have h1 : (analyzeConfidencePattern [0, 2]).variance = 2 := by
    simp only [analyzeConfidencePattern, if_neg hne2]
    norm_num [pyVariance, pyMean]
  have h2 : specPopulationVariance [0, 2] = 1 := by
    norm_num [specPopulationVariance, pyMean]
  exact ⟨h1, h2, by rw [h1, h2]; norm_num⟩

/-- C4 amended: on first establishment the variance entry is the sample
variance, i.e. n over n - 1 times the population variance, when there are at
least 2 counts, and 0 otherwise. -/
theorem c4_variance_is_sample_variance (confidence_expressions : List ℤ) :
    (2 ≤ confidence_expressions.length →
      (analyzeConfidencePattern confidence_expressions).variance =
        ((confidence_expressions.length : ℚ) / ((confidence_expressions.length : ℚ) - 1)) *
          specPopulationVariance confidence_expressions) ∧
    (confidence_expressions.length < 2 →
      (analyzeConfidencePattern confidence_expressions).variance = 0) := by
  constructor
  · intro h2
    have hnil : confidence_expressions ≠ [] := by
      intro h; subst h; simp at h2
    have h1lt : 1 < confidence_expressions.length := h2
    have hn2 : (2 : ℚ) ≤ (confidence_expressions.length : ℚ) := by exact_mod_cast h2
    have hn0 : (confidence_expressions.length : ℚ) ≠ 0 := by linarith
    have hn1 : (confidence_expressions.length : ℚ) - 1 ≠ 0 := by
      intro h
      rw [sub_eq_zero] at h
      rw [h] at hn2
      norm_num at hn2
    unfold analyzeConfidencePattern
    rw [if_neg hnil]
    show (if 1 < confidence_expressions.length then
        pyVariance (confidence_expressions.map (fun (c : ℤ) => (c : ℚ))) else 0) = _
    rw [if_pos h1lt]
    unfold pyVariance specPopulationVariance
    simp only [List.length_map]
    exact sum_div_sub_one_eq_mul_pyMean
      ((confidence_expressions.map (fun (c : ℤ) => (c : ℚ))).map
        (fun x => (x - pyMean (confidence_expressions.map (fun (c : ℤ) => (c : ℚ)))) ^ 2))
      ((confidence_expressions.length : ℚ)) (by simp only [List.length_map]) hn0 hn1
  · intro hlt
    by_cases hnil : confidence_expressions = []
    · simp [analyzeConfidencePattern, hnil]
    · have : ¬ (1 < confidence_expressions.length) := by omega
      simp [analyzeConfidencePattern, hnil, this]

/-- Witness instantiating the amended C4 at the counts 0 and 2. -/
theorem c4_variance_is_sample_variance_witness :
    2 ≤ ([0, 2] : List ℤ).length ∧
    (analyzeConfidencePattern [0, 2]).variance =
      ((([0, 2] : List ℤ).length : ℚ) / ((([0, 2] : List ℤ).length : ℚ) - 1)) *
        specPopulationVariance [0, 2] :=
  ⟨by norm_num, (c4_variance_is_sample_variance [0, 2]).1 (by norm_num)⟩

/-- C7: a baseline just established, then updated with an empty new-behavior
batch, is returned unchanged and the store is untouched. -/
theorem c7_update_with_empty_batch (mgr : BaselineManager) (now t2 : ℚ)
    (session_id : String) (behaviors : List InteractionBehavior)
    (baseline : BehavioralBaseline) (mgr1 : BaselineManager)
    (h : establishBaseline mgr now session_id behaviors = (some baseline, mgr1)) :
    updateBaseline mgr1 t2 session_id [] = (some baseline, mgr1) := by
  have hb : mgr1.baselines session_id = some baseline := by
    unfold establishBaseline at h
    split at h
    · simp at h
    · simp only [Prod.mk.injEq] at h
      obtain ⟨h1, h2⟩ := h
      rw [← h2]
      simpa [setBaseline] using h1
  exact updateBaseline_nil mgr1 t2 session_id baseline hb

/-- Witness instantiating C7 at a concrete establishment. -/
theorem c7_update_with_empty_batch_witness :
    updateBaseline
        (establishBaseline ⟨1, 6, fun _ => none⟩ 0 "s" [⟨"s", 100, 10, 1, 0, 0, 0, 0⟩]).2
        1 "s" [] =
      (some ⟨"s", 100, (10, 10), 0, 1, ⟨0, 0, 0, 0⟩, 1, 0, 0⟩,
       (establishBaseline ⟨1, 6, fun _ => none⟩ 0 "s" [⟨"s", 100, 10, 1, 0, 0, 0, 0⟩]).2) := by
  apply c7_update_with_empty_batch ⟨1, 6, fun _ => none⟩ 0 1 "s"
    [⟨"s", 100, 10, 1, 0, 0, 0, 0⟩] ⟨"s", 100, (10, 10), 0, 1, ⟨0, 0, 0, 0⟩, 1, 0, 0⟩
  apply Prod.ext_iff.mpr
  refine ⟨?_, rfl⟩
  simp [establishBaseline, pySorted, pyMean, pyInt, analyzeConfidencePattern,
    pyListMax, pyListMin, List.mergeSort]

/-- C8: when update_baseline blends, the conversation depth and
establishment/interaction bookkeeping behave as stated: depth and
established_at are carried over from the existing baseline, the interaction
count accumulates, and last_updated becomes the current time. -/
theorem c8_update_blend_frame (mgr : BaselineManager) (now : ℚ) (session_id : String)
    (new_behaviors : List InteractionBehavior) (existing_baseline : BehavioralBaseline)
    (hb : mgr.baselines session_id = some existing_baseline)
    (ht : ¬ (now - existing_baseline.last_updated < (mgr.update_frequency_hours : ℚ) * 3600))
    (hn : new_behaviors ≠ []) :
    ((updateBaseline mgr now session_id new_behaviors).1.map
        (fun u => (u.standard_conversation_depth, u.established_at,
                   u.interaction_count, u.last_updated))) =
      some (existing_baseline.standard_conversation_depth, existing_baseline.established_at,
            existing_baseline.interaction_count + new_behaviors.length, now) := by
  simp [updateBaseline, hb, ht, hn]

/-- Witness instantiating C8 at a concrete blending update. -/
theorem c8_update_blend_frame_witness :
    ((updateBaseline
        ⟨1, 0, fun s => if s = "s"
          then some ⟨"s", 100, (10, 10), 0, 1, ⟨0, 0, 0, 0⟩, 1, 0, 0⟩ else none⟩
        7 "s" [⟨"s", 50, 20, 2, 0, 0, 0, 5⟩]).1.map
      (fun u => (u.standard_conversation_depth, u.established_at,
                 u.interaction_count, u.last_updated))) =
      some (1, 0, 2, 7) :=
  c8_update_blend_frame
    ⟨1, 0, fun s => if s = "s"
      then some ⟨"s", 100, (10, 10), 0, 1, ⟨0, 0, 0, 0⟩, 1, 0, 0⟩ else none⟩
    7 "s" [⟨"s", 50, 20, 2, 0, 0, 0, 5⟩]
    ⟨"s", 100, (10, 10), 0, 1, ⟨0, 0, 0, 0⟩, 1, 0, 0⟩
    (by simp) (by norm_num) (by simp)

/-- C9: a forced failure mode is always injected as given and the injector,
including every per-session state entry, is returned untouched, so a forced
injection neither starts nor is blocked by the cooldown. -/
theorem c9_forced_mode_no_state_change (inj : FailureInjector) (now : ℚ) (draws : ℕ → ℚ)
    (session_id message : String) (m : FailureMode) :
    shouldInjectFailure inj now draws session_id message (some m) = ((true, some m), inj) := rfl

/-- Clamped quantities lie in the unit interval. -/
theorem min_one_bounds (x : ℚ) (hx : 0 ≤ x) : 0 ≤ min x 1 ∧ min x 1 ≤ 1 :=
  ⟨le_min hx zero_le_one, min_le_right x 1⟩

/-- A 0.3 / 0.2 / 0.3 / 0.2 weighted sum of unit-interval components lies in
the unit interval. -/
theorem weighted_sum_bounds (d0 d1 d2 d3 : ℚ)
    (h0 : 0 ≤ d0 ∧ d0 ≤ 1) (h1 : 0 ≤ d1 ∧ d1 ≤ 1)
    (h2 : 0 ≤ d2 ∧ d2 ≤ 1) (h3 : 0 ≤ d3 ∧ d3 ≤ 1) :
    0 ≤ d0 * (0.3 : ℚ) + d1 * (0.2 : ℚ) + d2 * (0.3 : ℚ) + d3 * (0.2 : ℚ) ∧
    d0 * (0.3 : ℚ) + d1 * (0.2 : ℚ) + d2 * (0.3 : ℚ) + d3 * (0.2 : ℚ) ≤ 1 := by
  obtain ⟨h0a, h0b⟩ := h0
  obtain ⟨h1a, h1b⟩ := h1
  obtain ⟨h2a, h2b⟩ := h2
  obtain ⟨h3a, h3b⟩ := h3
  constructor <;> nlinarith

/-- C3: detect_deviation always lands in the unit interval; it is zero for a
behavior matching the baseline aggregate statistics; and it is monotonically
non-decreasing in the absolute latency difference, the other behavior fields
held fixed. -/
theorem c3_detect_deviation :
    (∀ (b : InteractionBehavior) (baseline : BehavioralBaseline),
       0 ≤ detectDeviation b baseline ∧ detectDeviation b baseline ≤ 1) ∧
    (∀ (b : InteractionBehavior) (baseline : BehavioralBaseline),
       (b.response_latency_ms : ℚ) = baseline.avg_response_latency →
       baseline.typical_message_length_range.1 ≤ b.message_length →
       b.message_length ≤ baseline.typical_message_length_range.2 →
       b.clarification_frequency = baseline.normal_clarification_rate →
       (b.confidence_expressions : ℚ) = baseline.confidence_pattern.average →
       detectDeviation b baseline = 0) ∧
    (∀ (b1 b2 : InteractionBehavior) (baseline : BehavioralBaseline),
       b1.message_length = b2.message_length →
       b1.clarification_frequency = b2.clarification_frequency →
       b1.confidence_expressions = b2.confidence_expressions →
       |(b1.response_latency_ms : ℚ) - baseline.avg_response_latency| ≤
         |(b2.response_latency_ms : ℚ) - baseline.avg_response_latency| →
       detectDeviation b1 baseline ≤ detectDeviation b2 baseline) := by
  refine ⟨?_, ?_, ?_⟩
  · intro b baseline
    simp only [detectDeviation]
    apply weighted_sum_bounds
    · apply min_one_bounds
      exact div_nonneg (abs_nonneg _) (le_trans zero_le_one (le_max_right _ _))
    · apply min_one_bounds
      split
      · apply div_nonneg
        · rw [sub_nonneg]
          exact_mod_cast le_of_lt (by assumption)
        · exact le_trans zero_le_one (le_max_right _ _)
      · split
        · apply div_nonneg
          · rw [sub_nonneg]
            exact_mod_cast le_of_lt (by assumption)
          · exact le_trans zero_le_one (le_max_right _ _)
        · exact le_refl 0
    · exact min_one_bounds _ (abs_nonneg _)
    · apply min_one_bounds
      exact div_nonneg (abs_nonneg _) (le_trans zero_le_one (le_max_right _ _))
  · intro b baseline h1 h2 h3 h4 h5
    simp only [detectDeviation]
    rw [h1, sub_self, abs_zero, zero_div]
    rw [if_neg (not_lt.mpr h2), if_neg (not_lt.mpr h3)]
    rw [h4, sub_self, abs_zero]
    rw [h5, sub_self, abs_zero, zero_div]
    rw [min_eq_left zero_le_one]
    ring
  · intro b1 b2 baseline hlen hcf hconf hlat
    simp only [detectDeviation]
    rw [hlen, hcf, hconf]
    have hc : (0 : ℚ) < max baseline.avg_response_latency 1 :=
      lt_of_lt_of_le zero_lt_one (le_max_right _ _)
    have h01 : min (|(b1.response_latency_ms : ℚ) - baseline.avg_response_latency| /
        max baseline.avg_response_latency 1) 1 ≤
        min (|(b2.response_latency_ms : ℚ) - baseline.avg_response_latency| /
        max baseline.avg_response_latency 1) 1 :=
      min_le_min ((div_le_div_iff_of_pos_right hc).mpr hlat) le_rfl
    have h03 := mul_le_mul_of_nonneg_right h01 (by norm_num : (0 : ℚ) ≤ 0.3)
    linarith

/-- Witness instantiating C3 at a behavior matching its baseline exactly. -/
theorem c3_detect_deviation_witness :
    detectDeviation ⟨"s", 100, 10, 1, 0, 0, 0, 0⟩
      ⟨"s", 100, (10, 10), 0, 1, ⟨0, 0, 0, 0⟩, 1, 0, 0⟩ = 0 :=
  c3_detect_deviation.2.1 ⟨"s", 100, 10, 1, 0, 0, 0, 0⟩
    ⟨"s", 100, (10, 10), 0, 1, ⟨0, 0, 0, 0⟩, 1, 0, 0⟩
    (by norm_num) (by norm_num) (by norm_num) (by norm_num) (by norm_num)

/-- C5: loop detection returns none under 3 responses; an identical last
three yields exact_repetition at confidence 1; a distinct A-B-A-B tail yields
alternating_pattern at confidence 0.9; and 5 responses with exactly 2
distinct values (last three not all equal) yield low_diversity with
uniqueness ratio 0.4 and confidence 0.6, the diversity check preceding the
alternating check. -/
theorem c5_detect_response_loops :
    (∀ recent_responses : List String, recent_responses.length < 3 →
       detectResponseLoops recent_responses = none) ∧
    (∀ recent_responses : List String, 3 ≤ recent_responses.length →
       (lastN 3 recent_responses).dedup.length = 1 →
       detectResponseLoops recent_responses =
         some (.exact_repetition 3 (((lastN 3 recent_responses).headD "").take 100) 1)) ∧
    (∀ A B : String, A ≠ B →
       detectResponseLoops [A, B, A, B] =
         some (.alternating_pattern 2 [A.take 50, B.take 50] (0.9 : ℚ))) ∧
    (∀ recent_responses : List String, recent_responses.length = 5 →
       recent_responses.dedup.length = 2 →
       (lastN 3 recent_responses).dedup.length ≠ 1 →
       detectResponseLoops recent_responses =
         some (.low_diversity 5 ((2 : ℚ) / 5) ((3 : ℚ) / 5))) := by
  refine ⟨?_, ?_, ?_, ?_⟩
  · intro l h
    simp only [detectResponseLoops, if_pos h]
  · intro l h3 hd
    simp only [detectResponseLoops, if_neg (not_lt.mpr h3), if_pos hd]
  · intro A B hAB
    have h1 : lastN 3 [A, B, A, B] = [B, A, B] := by simp [lastN]
    have h2 : ([B, A, B] : List String).dedup.length ≠ 1 := by
      rw [List.dedup_cons_of_mem (by simp : B ∈ [A, B])]
      rw [List.dedup_cons_of_not_mem (by simp [hAB] : A ∉ [B])]
      simp
    simp only [detectResponseLoops, h1]
    rw [if_neg (by norm_num : ¬ ([A, B, A, B] : List String).length < 3)]
    rw [if_neg h2]
    rw [if_neg (by norm_num : ¬ (5 ≤ ([A, B, A, B] : List String).length))]
    simp [alternatingCheck, lastN]
  · intro l h5 hd2 hne1
    have h5l : lastN 5 l = l := by simp [lastN, h5]
    simp only [detectResponseLoops, h5l]
    rw [h5, hd2]
    rw [if_neg (by norm_num : ¬ (5 : ℕ) < 3)]
    rw [if_neg hne1]
    rw [if_pos (le_refl (5 : ℕ))]
    rw [if_pos (by norm_num : ((2 : ℕ) : ℚ) / ((5 : ℕ) : ℚ) < (0.6 : ℚ))]
    simp only [Option.some.injEq, LoopResult.low_diversity.injEq]
    norm_num

/-- Witness instantiating C5 at the alternating pair A-B-A-B. -/
theorem c5_detect_response_loops_witness :
    detectResponseLoops ["A", "B", "A", "B"] =
      some (.alternating_pattern 2 ["A".take 50, "B".take 50] (0.9 : ℚ)) :=
  c5_detect_response_loops.2.2.1 "A" "B" (by decide)

/-- A probabilistic evaluation against a session whose last injected failure
is inside the 30-second cooldown returns no injection and only bumps the
message count. -/
theorem cooldown_blocks (inj : FailureInjector) (session_id msg : String) (T t : ℚ)
    (draws : ℕ → ℚ) (st : SessionState)
    (hmode : inj.probabilistic_mode = true)
    (hst : inj.session_states session_id = some st)
    (hlf : st.last_failure_time = some T)
    (hT : T ≠ 0) (ht : t - T < 30) :
    shouldInjectFailure inj t draws session_id msg none =
      ((false, none),
       { inj with session_states := (setSessionState inj.session_states session_id
           { st with message_count := st.message_count + 1 }) }) := by
  simp [shouldInjectFailure, evaluateProbabilisticFailure, hmode, hst, hlf, hT, ht]

/-- Looking up the session state just stored for a session returns it. -/
theorem setSessionState_same (m : String → Option SessionState) (session_id : String)
    (st : SessionState) : setSessionState m session_id st session_id = some st := by
  simp [setSessionState]

/-- Every probabilistic evaluation in a sequence that stays inside the
cooldown window returns no injection, and the stamped last-failure time is
preserved throughout. -/
theorem cooldown_runEvals (session_id msg : String) (T : ℚ) (hT : T ≠ 0) :
    ∀ (evals : List (ℚ × (ℕ → ℚ))) (inj : FailureInjector) (st : SessionState),
      inj.probabilistic_mode = true →
      inj.session_states session_id = some st →
      st.last_failure_time = some T →
      (∀ p ∈ evals, p.1 - T < 30) →
      (runEvals inj session_id msg evals).1 = evals.map (fun _ => (false, none)) := by
  intro evals
  induction evals with
  | nil => intro inj st _ _ _ _; rfl
  | cons e rest ih =>
    intro inj st hmode hst hlf hwin
    obtain ⟨t, d⟩ := e
    have hstep := cooldown_blocks inj session_id msg T t d st hmode hst hlf hT
      (hwin (t, d) (List.mem_cons_self _ _))
    simp only [runEvals, hstep, List.map_cons, List.cons.injEq]
    refine ⟨by trivial, ?_⟩
    apply ih _ ({ st with message_count := st.message_count + 1 })
    · exact hmode
    · exact setSessionState_same _ _ _
    · exact hlf
    · intro p hp
      exact hwin p (List.mem_cons_of_mem _ hp)

/-- C6: in probabilistic mode with no forced mode, once an injection fires
for a session at time T, every later probabilistic evaluation for that
session at a time before T plus 30 seconds returns no injection, whatever
the random draws. Times are wall-clock values and therefore positive. -/
theorem c6_cooldown (inj inj1 : FailureInjector) (session_id msg : String) (T : ℚ)
    (draws : ℕ → ℚ) (m : FailureMode)
    (hmode : inj.probabilistic_mode = true) (hT : 0 < T)
    (hfire : shouldInjectFailure inj T draws session_id msg none = ((true, some m), inj1))
    (evals : List (ℚ × (ℕ → ℚ)))
    (hwin : ∀ p ∈ evals, p.1 < T + 30) :
    (runEvals inj1 session_id msg evals).1 = evals.map (fun _ => (false, none)) := by
  simp only [shouldInjectFailure, hmode, if_true] at hfire
  simp only [evaluateProbabilisticFailure] at hfire
  split at hfire
  · simp at hfire
  · split at hfire
    · simp only [Prod.mk.injEq] at hfire
      obtain ⟨hres, hinj⟩ := hfire
      subst hinj
      exact cooldown_runEvals session_id msg T (ne_of_gt hT) evals _ _ hmode
        (setSessionState_same _ _ _) rfl
        (fun p hp => by have := hwin p hp; linarith)
    · simp at hfire

/-- Witness instantiating C6: with draws that always land at 0 the first
catalog mode fires at time 1, and an evaluation at time 2 is blocked. -/
theorem c6_cooldown_witness :
    (runEvals (shouldInjectFailure ⟨true, 1, fun _ => none⟩ 1 (fun _ => 0) "s" "m" none).2
        "s" "m" [(2, fun _ => 0)]).1 =
      ([(2, fun _ => 0)] : List (ℚ × (ℕ → ℚ))).map (fun _ => (false, none)) := by
  apply c6_cooldown ⟨true, 1, fun _ => none⟩ _ "s" "m" 1 (fun _ => 0) .hallucination rfl
    (by norm_num)
  · apply Prod.ext_iff.mpr
    refine ⟨?_, rfl⟩
    show (shouldInjectFailure ⟨true, 1, fun _ => none⟩ 1 (fun _ => 0) "s" "m" none).1 =
      (true, some .hallucination)
    simp only [shouldInjectFailure, evaluateProbabilisticFailure, rollForFailure,
      failure_scenario_probabilities, freshSessionState]
    simp
    norm_num
  · intro p hp
    simp only [List.mem_singleton] at hp
    subst hp
    norm_num

/-- C10: the topic-switch heuristic only ever reports 0 or 1, and reports 0
whenever the stop-word-filtered user word set is empty, so the overlap-ratio
division is never reached with a zero denominator. -/
theorem c10_topic_switches (user_message agent_response : String) :
    (detectTopicSwitches user_message agent_response = 0 ∨
      detectTopicSwitches user_message agent_response = 1) ∧
    (userContentWords user_message = [] →
      detectTopicSwitches user_message agent_response = 0) := by
  constructor
  · simp only [detectTopicSwitches]
    split
    · exact Or.inl rfl
    · split
      · exact Or.inr rfl
      · exact Or.inl rfl
  · intro h
    simp [detectTopicSwitches, h]

/-- Witness instantiating C10 at a user message made only of stop words. -/
theorem c10_topic_switches_witness :
    userContentWords "the" = [] ∧ detectTopicSwitches "the" "hello world" = 0 :=
  ⟨by decide, (c10_topic_switches "the" "hello world").2 (by decide)⟩

/-- C1: the overall anomaly score of detect_anomalies is 0 when no check
fired, and otherwise is attained by one fired per-type score and bounds all
of them: it is their maximum, not their sum or average. -/
theorem c1_overall_score_is_max (det : AnomalyDetector) (now : ℚ) (session_id : String)
    (current_behavior : InteractionBehavior) (session_behaviors : List InteractionBehavior)
    (recent_responses : Option (List String)) :
    ((detectAnomalies det now session_id current_behavior session_behaviors
        recent_responses).1.anomaly_scores = [] →
      (detectAnomalies det now session_id current_behavior session_behaviors
        recent_responses).1.overall_anomaly_score = 0) ∧
    ((detectAnomalies det now session_id current_behavior session_behaviors
        recent_responses).1.anomaly_scores ≠ [] →
      ((detectAnomalies det now session_id current_behavior session_behaviors
          recent_responses).1.overall_anomaly_score ∈
        ((detectAnomalies det now session_id current_behavior session_behaviors
          recent_responses).1.anomaly_scores.map (fun p => p.2)) ∧
      ∀ q ∈ ((detectAnomalies det now session_id current_behavior session_behaviors
          recent_responses).1.anomaly_scores.map (fun p => p.2)),
        q ≤ (detectAnomalies det now session_id current_behavior session_behaviors
          recent_responses).1.overall_anomaly_score)) := by
  set r := (detectAnomalies det now session_id current_behavior session_behaviors
    recent_responses).1 with hr
  have hover : r.overall_anomaly_score =
      (if r.anomaly_scores = [] then 0
       else pyListMax (r.anomaly_scores.map (fun p => p.2))) := rfl
  constructor
  · intro h
    rw [hover, if_pos h]
  · intro h
    rw [hover, if_neg h]
    obtain ⟨x, xs, hx⟩ : ∃ x xs, r.anomaly_scores.map (fun p => p.2) = x :: xs := by
      cases hsc : r.anomaly_scores with
      | nil => exact absurd hsc h
      | cons a as => exact ⟨a.2, as.map (fun (p : String × ℚ) => p.2), List.map_cons _ _ _⟩
    rw [hx]
    exact pyListMax_spec x xs

/-- Witness instantiating C1 at an empty session history where no check
fires. -/
theorem c1_overall_score_is_max_witness :
    (detectAnomalies ⟨⟨10, 6, fun _ => none⟩, 0.7, 0.8⟩ 0 "s"
        ⟨"s", 0, 0, 1, 0, 0, 0, 0⟩ [] none).1.anomaly_scores = [] ∧
    (detectAnomalies ⟨⟨10, 6, fun _ => none⟩, 0.7, 0.8⟩ 0 "s"
        ⟨"s", 0, 0, 1, 0, 0, 0, 0⟩ [] none).1.overall_anomaly_score = 0 := by
  have hsc : (detectAnomalies ⟨⟨10, 6, fun _ => none⟩, 0.7, 0.8⟩ 0 "s"
      ⟨"s", 0, 0, 1, 0, 0, 0, 0⟩ [] none).1.anomaly_scores = [] := by
    simp [detectAnomalies, detectBaselineAnomaly, detectDriftAnomaly, detectPatternAnomaly,
      detectStatisticalAnomaly, detectLoopAnomaly, identifyInteractionPatterns]
  exact ⟨hsc, (c1_overall_score_is_max ⟨⟨10, 6, fun _ => none⟩, 0.7, 0.8⟩ 0 "s"
    ⟨"s", 0, 0, 1, 0, 0, 0, 0⟩ [] none).1 hsc⟩
